import Mathlib

/-!
Shallow embedding of the Polkavex HTLC escrow engine.

Two sibling pallets are embedded:
* `FusionEscrow` — src/polkadot/pallets/fusion-escrow/src/lib.rs
* `Fusion`       — src/polkadot/pallets/fusion/src/lib.rs

Machine integers: escrow ids are u32 (saturating addition is modelled with
an explicit cap at 2^32 - 1); balances are u128 and block numbers are u64,
modelled as `Nat` since no operation on them can overflow on the paths the
claims touch.  Storage maps are total functions; `BoundedVec` push is the
explicit `tryPush`.  Events are omitted: no claim mentions them.

FRAME dispatchables are transactional: when a dispatchable returns an
error, every storage write it performed is reverted by the host.  The
embedding therefore lets each operation build its final state functionally
and return `Except Err State`; `dispatchState` realises the host's
rollback (error ⇒ the pre-state is kept).
-/

namespace Polkavex

/-- Account identifiers: ordinary user accounts, the pallet's sovereign
account (`account_id()` in fusion-escrow) and the per-escrow sub-accounts
(`escrow_account(id)` in the fusion pallet). -/
inductive Acct
  | user (n : Nat)
  | sovereign
  | escrowSub (id : Nat)
deriving DecidableEq, Repr

/-- Dispatch origins as consumed by `ensure_signed` / `ensure_root`. -/
inductive Origin
  | signed (who : Acct)
  | root
  | none
deriving DecidableEq, Repr

/-- `ensure_signed`: a signed origin yields the signer, anything else is
`BadOrigin` (modelled per pallet by the caller mapping the error). -/
def signerOf : Origin → Option Acct
  | .signed who => some who
  | _ => Option.none

/-- Ledger key of the external custody backend: the native balance ledger
or an indexed fungible asset. -/
inductive AssetKey
  | native
  | asset (id : Nat)
deriving DecidableEq, Repr

/-- Pointwise update of a total map. -/
def upd {α β : Type} [DecidableEq α] (m : α → β) (k : α) (v : β) : α → β :=
  fun x => if x = k then v else m x

/-- Balance move on one ledger: subtract at the source, add at the
destination (correct also when source = destination). -/
def moveBal (b : Acct → Nat) (src dst : Acct) (amt : Nat) : Acct → Nat :=
  fun a => b a - (if a = src then amt else 0) + (if a = dst then amt else 0)

/-- `u32::saturating_add` on the id counter. -/
def u32SaturatingAdd (a b : Nat) : Nat := min (a + b) (2 ^ 32 - 1)

/-- `BoundedVec::try_push`: append iff strictly below capacity. -/
def tryPush (cap : Nat) (l : List Nat) (x : Nat) : Option (List Nat) :=
  if l.length < cap then some (l ++ [x]) else Option.none

/-- Discriminate success of a dispatch result. -/
def isOk {ε α : Type} : Except ε α → Bool
  | .ok _ => true
  | .error _ => false

namespace FusionEscrow

/-- `AssetType` of fusion-escrow: native currency, indexed asset, or NFT
(collection id, item id). -/
inductive AssetType
  | Native
  | Asset (id : Nat)
  | Nft (collection : Nat) (item : Nat)
deriving DecidableEq, Repr

/-- Escrow lifecycle states. -/
inductive EscrowState
  | Created
  | Active
  | Completed
  | Cancelled
deriving DecidableEq, Repr

/-- `EscrowDetails` record of fusion-escrow.  The 32-byte secret hash and
the ≤ 256-byte metadata are abstracted to `Nat` and `List Nat`; only
equality on them is ever used. -/
structure EscrowDetails where
  secret_hash : Nat
  maker : Acct
  taker : Acct
  timelock : Nat
  asset_type : AssetType
  amount : Nat
  state : EscrowState
  xcm_destination : Option Nat
  created_block : Nat
  metadata : List Nat
deriving DecidableEq, Repr

/-- Pallet errors of fusion-escrow, plus the frame-level `BadOrigin`. -/
inductive Err
  | EscrowNotFound
  | InvalidEscrowState
  | InvalidSecret
  | TimelockNotExpired
  | TimelockExpired
  | InsufficientBalance
  | NotAuthorized
  | InvalidTimelock
  | TooManyEscrows
  | InvalidAsset
  | XcmExecutionFailed
  | Overflow
  | PalletPaused
  | InvalidTaker
  | DuplicateSecretHash
  | BadOrigin
deriving DecidableEq, Repr

/-- Runtime constants of the pallet `Config`. -/
structure Config where
  MaxEscrowsPerAccount : Nat
  MinTimelock : Nat
  MaxTimelock : Nat
deriving DecidableEq, Repr

/-- The pallet's storage together with the external custody ledger:
`Escrows`, `NextEscrowId`, `EscrowsBySecret`, `EscrowsByMaker`,
`EscrowsByTaker`, `IsPaused`, and the balance of every account on every
ledger. -/
structure EscrowStore where
  escrows : Nat → Option EscrowDetails
  nextEscrowId : Nat
  escrowsBySecret : Nat → Option Nat
  escrowsByMaker : Acct → List Nat
  escrowsByTaker : Acct → List Nat
  isPaused : Bool
  balances : AssetKey → Acct → Nat

/-- The custody move each state-changing operation performs, matching the
per-operation `match` on `asset_type`: native and indexed assets go
through the ledger, the NFT arm returns `InvalidAsset`.  The external
backend is out of scope of the source (frame `fungible`/`fungibles`
traits); it is modelled as: move `amount` if the source holds at least
that much, else fail, surfaced as `InsufficientBalance`.  The
`Preserve` / `Expendable` existential-deposit modes are not
distinguished. -/
def assetMove (s : EscrowStore) (asset : AssetType) (src dst : Acct)
    (amount : Nat) : Except Err EscrowStore :=
  match asset with
  | .Nft _ _ => .error .InvalidAsset
  | .Native =>
      if amount ≤ s.balances .native src then
        .ok { s with balances := upd s.balances .native (moveBal (s.balances .native) src dst amount) }
      else .error .InsufficientBalance
  | .Asset id =>
      if amount ≤ s.balances (.asset id) src then
        .ok { s with balances := upd s.balances (.asset id) (moveBal (s.balances (.asset id)) src dst amount) }
      else .error .InsufficientBalance

/-- `create_escrow` (fusion-escrow lib.rs lines 338-422), checks in source
order: signed origin, pause flag, timelock lower bound, timelock upper
bound, maker ≠ taker, duplicate secret hash, maker's list below capacity,
non-zero amount; then the id is assigned with `saturating_add`, the record
and both indices are written, the taker-side `try_push` mapping a
capacity failure to `TooManyEscrows`. -/
def create_escrow (cfg : Config) (s : EscrowStore) (origin : Origin)
    (secret_hash : Nat) (timelock : Nat) (taker : Acct)
    (asset_type : AssetType) (amount : Nat) (xcm_destination : Option Nat)
    (metadata : List Nat) (current_block : Nat) : Except Err EscrowStore :=
  match signerOf origin with
  | Option.none => .error .BadOrigin
  | some maker =>
    if s.isPaused then .error .PalletPaused
    else if ¬ (current_block + cfg.MinTimelock ≤ timelock) then .error .InvalidTimelock
    else if ¬ (timelock ≤ current_block + cfg.MaxTimelock) then .error .InvalidTimelock
    else if maker = taker then .error .InvalidTaker
    else if (s.escrowsBySecret secret_hash).isSome then .error .DuplicateSecretHash
    else if ¬ ((s.escrowsByMaker maker).length < cfg.MaxEscrowsPerAccount) then .error .TooManyEscrows
    else if amount = 0 then .error .InvalidAsset
    else
      let escrow_id := s.nextEscrowId
      let next_id := u32SaturatingAdd escrow_id 1
      let escrow : EscrowDetails :=
        { secret_hash := secret_hash, maker := maker, taker := taker,
          timelock := timelock, asset_type := asset_type, amount := amount,
          state := .Created, xcm_destination := xcm_destination,
          created_block := current_block, metadata := metadata }
      let s1 : EscrowStore :=
        { s with nextEscrowId := next_id,
                 escrows := upd s.escrows escrow_id (some escrow),
                 escrowsBySecret := upd s.escrowsBySecret secret_hash (some escrow_id) }
      match tryPush cfg.MaxEscrowsPerAccount (s1.escrowsByMaker maker) escrow_id with
      | Option.none => .error .TooManyEscrows
      | some makerList =>
        let s2 : EscrowStore := { s1 with escrowsByMaker := upd s1.escrowsByMaker maker makerList }
        match tryPush cfg.MaxEscrowsPerAccount (s2.escrowsByTaker taker) escrow_id with
        | Option.none => .error .TooManyEscrows
        | some takerList =>
          .ok { s2 with escrowsByTaker := upd s2.escrowsByTaker taker takerList }

/-- `fund_escrow` (lines 427-490): signed, pause, lookup, caller is the
maker, state `Created`, `current_block < timelock`, then the custody move
maker → sovereign and the transition to `Active`. -/
def fund_escrow (s : EscrowStore) (origin : Origin) (escrow_id : Nat)
    (current_block : Nat) : Except Err EscrowStore :=
  match signerOf origin with
  | Option.none => .error .BadOrigin
  | some who =>
    if s.isPaused then .error .PalletPaused
    else match s.escrows escrow_id with
    | Option.none => .error .EscrowNotFound
    | some escrow =>
      if who ≠ escrow.maker then .error .NotAuthorized
      else if escrow.state ≠ .Created then .error .InvalidEscrowState
      else if ¬ (current_block < escrow.timelock) then .error .TimelockExpired
      else match assetMove s escrow.asset_type who .sovereign escrow.amount with
      | .error e => .error e
      | .ok s' =>
        .ok { s' with escrows := upd s'.escrows escrow_id (some { escrow with state := .Active }) }

/-- `complete_escrow` (lines 495-559): signed, pause, lookup, state
`Active`, `current_block < timelock`, preimage hashes to the stored
commitment, then the custody move sovereign → stored taker and the
transition to `Completed`.  The caller is never compared with the taker.
Hashing (`BlakeTwo256`) is external; it is the parameter `blake2`. -/
def complete_escrow (blake2 : Nat → Nat) (s : EscrowStore) (origin : Origin)
    (escrow_id : Nat) (secret : Nat) (current_block : Nat) :
    Except Err EscrowStore :=
  match signerOf origin with
  | Option.none => .error .BadOrigin
  | some _who =>
    if s.isPaused then .error .PalletPaused
    else match s.escrows escrow_id with
    | Option.none => .error .EscrowNotFound
    | some escrow =>
      if escrow.state ≠ .Active then .error .InvalidEscrowState
      else if ¬ (current_block < escrow.timelock) then .error .TimelockExpired
      else if blake2 secret ≠ escrow.secret_hash then .error .InvalidSecret
      else match assetMove s escrow.asset_type .sovereign escrow.taker escrow.amount with
      | .error e => .error e
      | .ok s' =>
        .ok { s' with escrows := upd s'.escrows escrow_id (some { escrow with state := .Completed }) }

/-- `cancel_escrow` (lines 564-626): signed, pause, lookup, caller is the
maker, state `Active`, `current_block ≥ timelock` else
`TimelockNotExpired`, then the refund sovereign → maker and the
transition to `Cancelled`. -/
def cancel_escrow (s : EscrowStore) (origin : Origin) (escrow_id : Nat)
    (current_block : Nat) : Except Err EscrowStore :=
  match signerOf origin with
  | Option.none => .error .BadOrigin
  | some who =>
    if s.isPaused then .error .PalletPaused
    else match s.escrows escrow_id with
    | Option.none => .error .EscrowNotFound
    | some escrow =>
      if who ≠ escrow.maker then .error .NotAuthorized
      else if escrow.state ≠ .Active then .error .InvalidEscrowState
      else if ¬ (current_block ≥ escrow.timelock) then .error .TimelockNotExpired
      else match assetMove s escrow.asset_type .sovereign escrow.maker escrow.amount with
      | .error e => .error e
      | .ok s' =>
        .ok { s' with escrows := upd s'.escrows escrow_id (some { escrow with state := .Cancelled }) }

/-- `cancel_before_funding` (lines 631-664): signed, pause, lookup, caller
is the maker, state `Created`; the record moves to `Cancelled` and the
`EscrowsBySecret` entry for its digest is removed.  No assets move. -/
def cancel_before_funding (s : EscrowStore) (origin : Origin)
    (escrow_id : Nat) : Except Err EscrowStore :=
  match signerOf origin with
  | Option.none => .error .BadOrigin
  | some who =>
    if s.isPaused then .error .PalletPaused
    else match s.escrows escrow_id with
    | Option.none => .error .EscrowNotFound
    | some escrow =>
      if who ≠ escrow.maker then .error .NotAuthorized
      else if escrow.state ≠ .Created then .error .InvalidEscrowState
      else
        .ok { s with escrows := upd s.escrows escrow_id (some { escrow with state := .Cancelled }),
                     escrowsBySecret := upd s.escrowsBySecret escrow.secret_hash Option.none }

/-- `toggle_pause` (lines 669-684): root origin only, flips `IsPaused`. -/
def toggle_pause (s : EscrowStore) (origin : Origin) : Except Err EscrowStore :=
  match origin with
  | .root => .ok { s with isPaused := !s.isPaused }
  | _ => .error .BadOrigin

/-- FRAME transactional dispatch: a dispatchable that errors has all of
its storage writes reverted, so the post-state of a failed call is the
pre-state. -/
def dispatchState (r : Except Err EscrowStore) (s : EscrowStore) : EscrowStore :=
  match r with
  | .ok s' => s'
  | .error _ => s

end FusionEscrow

namespace Fusion

/-- `EscrowState` of the fusion pallet (it has a fifth `Paused` state). -/
inductive EscrowStateF
  | Created
  | Active
  | Completed
  | Cancelled
  | Paused
deriving DecidableEq, Repr

/-- `AssetInfo` of the fusion pallet.  The `Stablecoin` variant is omitted:
no transfer `match` in the source has an arm for it, so no embedded
operation could be run on it. -/
inductive AssetInfoF
  | Native
  | Asset (id : Nat)
  | Nft (collection : Nat) (item : Nat)
deriving DecidableEq, Repr

/-- The `Escrow` record of the fusion pallet (hashlock abstracted to a
`Nat` digest, metadata and xcm route to opaque payloads). -/
structure EscrowF where
  id : Nat
  creator : Acct
  beneficiary : Acct
  asset : AssetInfoF
  amount : Nat
  hashlock : Nat
  timelock : Nat
  state : EscrowStateF
  metadata : List Nat
  xcm_route : Option (List Nat)
  created_at : Nat
  updated_at : Nat
deriving DecidableEq, Repr

/-- Pallet errors of the fusion pallet, plus the frame-level `BadOrigin`. -/
inductive ErrF
  | EscrowNotFound
  | InvalidEscrowState
  | InvalidHashlock
  | InvalidTimelock
  | TimelockExpired
  | IncorrectSecret
  | InvalidSecret
  | NotCreator
  | NotBeneficiary
  | InsufficientBalance
  | AssetNotSupported
  | TooManyEscrows
  | InvalidXcmRoute
  | XcmExecutionFailed
  | EmergencyPaused
  | OperationNotAllowed
  | InvalidMetadata
  | ArithmeticOverflow
  | BadOrigin
deriving DecidableEq, Repr

/-- Storage of the fusion pallet together with the custody ledger:
`Escrows`, `AccountEscrows`, `NextEscrowId`, `EmergencyPaused`. -/
structure FusionStore where
  escrows : Nat → Option EscrowF
  accountEscrows : Acct → List Nat
  nextEscrowId : Nat
  emergencyPaused : Bool
  balances : AssetKey → Acct → Nat

/-- Custody move of the fusion pallet (per-operation `match` on the
asset): native and indexed assets via the external ledger, the NFT arm
returns `AssetNotSupported`.  The backend is modelled as in
`FusionEscrow.assetMove`. -/
def assetMoveF (s : FusionStore) (asset : AssetInfoF) (src dst : Acct)
    (amount : Nat) : Except ErrF FusionStore :=
  match asset with
  | .Nft _ _ => .error .AssetNotSupported
  | .Native =>
      if amount ≤ s.balances .native src then
        .ok { s with balances := upd s.balances .native (moveBal (s.balances .native) src dst amount) }
      else .error .InsufficientBalance
  | .Asset id =>
      if amount ≤ s.balances (.asset id) src then
        .ok { s with balances := upd s.balances (.asset id) (moveBal (s.balances (.asset id)) src dst amount) }
      else .error .InsufficientBalance

/-- `complete_escrow` of the fusion pallet (fusion lib.rs lines 467-518):
signed, pause, lookup, state `Active`, **caller must be the stored
beneficiary** (else `NotBeneficiary`), `current_block < timelock`,
SHA-256 of the secret equals the hashlock (else `IncorrectSecret`), then
the move from the per-escrow sub-account to the caller (the beneficiary)
and the transition to `Completed`.  Hashing is external; it is the
parameter `sha2`. -/
def complete_escrow (sha2 : Nat → Nat) (s : FusionStore) (origin : Origin)
    (escrow_id : Nat) (secret : Nat) (current_block : Nat) :
    Except ErrF FusionStore :=
  match signerOf origin with
  | Option.none => .error .BadOrigin
  | some who =>
    if s.emergencyPaused then .error .EmergencyPaused
    else match s.escrows escrow_id with
    | Option.none => .error .EscrowNotFound
    | some escrow =>
      if escrow.state ≠ .Active then .error .InvalidEscrowState
      else if escrow.beneficiary ≠ who then .error .NotBeneficiary
      else if ¬ (current_block < escrow.timelock) then .error .TimelockExpired
      else if sha2 secret ≠ escrow.hashlock then .error .IncorrectSecret
      else match assetMoveF s escrow.asset (.escrowSub escrow_id) who escrow.amount with
      | .error e => .error e
      | .ok s' =>
        let escrow' := { escrow with state := EscrowStateF.Completed, updated_at := current_block }
        .ok { s' with escrows := upd s'.escrows escrow_id (some escrow') }

/-- `cancel_escrow` of the fusion pallet (lines 523-575).  Note: there is
**no pause check**.  Signed, lookup, state `Active` or `Created`; a
caller other than the creator needs `current_block ≥ timelock` (else
`InvalidTimelock`); an `Active` escrow is refunded to the creator; the
record moves to `Cancelled`. -/
def cancel_escrow (s : FusionStore) (origin : Origin) (escrow_id : Nat)
    (_reason : List Nat) (current_block : Nat) : Except ErrF FusionStore :=
  match signerOf origin with
  | Option.none => .error .BadOrigin
  | some who =>
    match s.escrows escrow_id with
    | Option.none => .error .EscrowNotFound
    | some escrow =>
      if ¬ (escrow.state = .Active ∨ escrow.state = .Created) then .error .InvalidEscrowState
      else if who ≠ escrow.creator ∧ ¬ (current_block ≥ escrow.timelock) then .error .InvalidTimelock
      else
        match (if escrow.state = .Active then
                 assetMoveF s escrow.asset (.escrowSub escrow_id) escrow.creator escrow.amount
               else .ok s) with
        | .error e => .error e
        | .ok s' =>
          let escrow' := { escrow with state := EscrowStateF.Cancelled, updated_at := current_block }
          .ok { s' with escrows := upd s'.escrows escrow_id (some escrow') }

/-- `emergency_pause` of the fusion pallet (lines 580-597): the origin may
be **any signed account** or root (`BadOrigin` only for an unsigned,
non-root origin); it sets the pause flag to `true`. -/
def emergency_pause (s : FusionStore) (origin : Origin) : Except ErrF FusionStore :=
  match origin with
  | .signed _ => .ok { s with emergencyPaused := true }
  | .root => .ok { s with emergencyPaused := true }
  | .none => .error .BadOrigin

/-- `emergency_unpause` (lines 602-619): same origin rule, clears the
flag. -/
def emergency_unpause (s : FusionStore) (origin : Origin) : Except ErrF FusionStore :=
  match origin with
  | .signed _ => .ok { s with emergencyPaused := false }
  | .root => .ok { s with emergencyPaused := false }
  | .none => .error .BadOrigin

end Fusion

/-! Concrete fixtures used by witnesses and counterexamples. -/

/-- A small runtime configuration: at most 2 escrows per account,
timelock window `[current + 10, current + 100]`. -/
def cfg0 : FusionEscrow.Config :=
  { MaxEscrowsPerAccount := 2, MinTimelock := 10, MaxTimelock := 100 }

/-- A concrete stand-in for the external Blake2-256 hash. -/
def blakeFix : Nat → Nat := fun n => n + 7

/-- An `Active` native escrow: maker `user 1`, taker `user 2`,
commitment `blakeFix 70 = 77`, amount 1000, timelock 50. -/
def escA : FusionEscrow.EscrowDetails :=
  { secret_hash := 77, maker := .user 1, taker := .user 2, timelock := 50,
    asset_type := .Native, amount := 1000, state := .Active,
    xcm_destination := Option.none, created_block := 1, metadata := [] }

/-- A store holding `escA` under id 1, funds in custody, not paused. -/
def storeA : FusionEscrow.EscrowStore :=
  { escrows := fun i => if i = 1 then some escA else Option.none,
    nextEscrowId := 2,
    escrowsBySecret := fun h => if h = 77 then some 1 else Option.none,
    escrowsByMaker := fun a => if a = .user 1 then [1] else [],
    escrowsByTaker := fun a => if a = .user 2 then [1] else [],
    isPaused := false,
    balances := fun k a =>
      match k, a with
      | .native, .sovereign => 1000
      | .native, .user 1 => 500
      | _, _ => 0 }

/-- A concrete stand-in for the external SHA-256 hash. -/
def sha2Fix : Nat → Nat := fun n => n + 9

/-- An `Active` fusion-pallet escrow: creator `user 1`, beneficiary
`user 2`, commitment `sha2Fix 42 = 51`, amount 1000, timelock 50. -/
def escF : Fusion.EscrowF :=
  { id := 1, creator := .user 1, beneficiary := .user 2, asset := .Native,
    amount := 1000, hashlock := 51, timelock := 50, state := .Active,
    metadata := [], xcm_route := Option.none, created_at := 1, updated_at := 1 }

/-- A fusion store holding `escF` under id 1, funded, not paused. -/
def storeF : Fusion.FusionStore :=
  { escrows := fun i => if i = 1 then some escF else Option.none,
    accountEscrows := fun a => if a = .user 1 then [1] else [],
    nextEscrowId := 2,
    emergencyPaused := false,
    balances := fun k a =>
      match k, a with
      | .native, .escrowSub 1 => 1000
      | _, _ => 0 }

/-- `escF` still unfunded. -/
def escFCreated : Fusion.EscrowF := { escF with state := .Created }

/-- A paused fusion store holding the unfunded `escFCreated` under id 1. -/
def storeFPaused : Fusion.FusionStore :=
  { storeF with
      escrows := fun i => if i = 1 then some escFCreated else Option.none,
      emergencyPaused := true }

namespace FusionEscrow

theorem create_paused (cfg : Config) (s : EscrowStore)
    (maker taker : Acct) (sh t : Nat) (aty : AssetType) (amt : Nat)
    (xd : Option Nat) (md : List Nat) (cur : Nat) (hp : s.isPaused = true) :
    create_escrow cfg s (.signed maker) sh t taker aty amt xd md cur
      = .error .PalletPaused := by
  simp [create_escrow, signerOf, hp]

theorem create_timelock_err (cfg : Config) (s : EscrowStore)
    (maker taker : Acct) (sh t : Nat) (aty : AssetType) (amt : Nat)
    (xd : Option Nat) (md : List Nat) (cur : Nat) (hp : s.isPaused = false)
    (hout : ¬ (cur + cfg.MinTimelock ≤ t ∧ t ≤ cur + cfg.MaxTimelock)) :
    create_escrow cfg s (.signed maker) sh t taker aty amt xd md cur
      = .error .InvalidTimelock := by
  rw [Decidable.not_and_iff_or_not] at hout
  rcases hout with h | h <;> simp [create_escrow, signerOf, hp, h]

theorem create_no_timelock_err (cfg : Config) (s : EscrowStore)
    (maker taker : Acct) (sh t : Nat) (aty : AssetType) (amt : Nat)
    (xd : Option Nat) (md : List Nat) (cur : Nat) (hp : s.isPaused = false)
    (h1 : cur + cfg.MinTimelock ≤ t) (h2 : t ≤ cur + cfg.MaxTimelock) :
    create_escrow cfg s (.signed maker) sh t taker aty amt xd md cur
      ≠ .error .InvalidTimelock := by
  simp only [create_escrow, signerOf, hp]
  split_ifs <;> simp_all [tryPush]
  all_goals (split <;> simp_all)

end FusionEscrow


namespace FusionEscrow

theorem fund_paused (s : EscrowStore) (who : Acct) (id cur : Nat)
    (hp : s.isPaused = true) :
    fund_escrow s (.signed who) id cur = .error .PalletPaused := by
  simp [fund_escrow, signerOf, hp]

theorem complete_paused (blake2 : Nat → Nat) (s : EscrowStore) (who : Acct)
    (id sec cur : Nat) (hp : s.isPaused = true) :
    complete_escrow blake2 s (.signed who) id sec cur = .error .PalletPaused := by
  simp [complete_escrow, signerOf, hp]

theorem cancel_paused (s : EscrowStore) (who : Acct) (id cur : Nat)
    (hp : s.isPaused = true) :
    cancel_escrow s (.signed who) id cur = .error .PalletPaused := by
  simp [cancel_escrow, signerOf, hp]

theorem cbf_paused (s : EscrowStore) (who : Acct) (id : Nat)
    (hp : s.isPaused = true) :
    cancel_before_funding s (.signed who) id = .error .PalletPaused := by
  simp [cancel_before_funding, signerOf, hp]

theorem assetMove_frame (s s' : EscrowStore) (a : AssetType) (src dst : Acct)
    (amt : Nat) (h : assetMove s a src dst amt = .ok s') :
    s'.escrows = s.escrows ∧ s'.nextEscrowId = s.nextEscrowId
      ∧ s'.escrowsBySecret = s.escrowsBySecret
      ∧ s'.escrowsByMaker = s.escrowsByMaker
      ∧ s'.escrowsByTaker = s.escrowsByTaker
      ∧ s'.isPaused = s.isPaused := by
  unfold assetMove at h
  split at h
  · simp at h
  · split at h
    · rw [Except.ok.injEq] at h
      subst h
      simp
    · simp at h
  · split at h
    · rw [Except.ok.injEq] at h
      subst h
      simp
    · simp at h

theorem assetMove_err (s : EscrowStore) (a : AssetType) (src dst : Acct)
    (amt : Nat) (e : Err) (h : assetMove s a src dst amt = .error e) :
    e = .InvalidAsset ∨ e = .InsufficientBalance := by
  unfold assetMove at h
  split at h
  · injection h with h1
    exact Or.inl h1.symm
  · split at h
    · simp at h
    · injection h with h1
      exact Or.inr h1.symm
  · split at h
    · simp at h
    · injection h with h1
      exact Or.inr h1.symm

end FusionEscrow


namespace FusionEscrow

theorem create_invalid_taker (cfg : Config) (s : EscrowStore)
    (maker taker : Acct) (sh t : Nat) (aty : AssetType) (amt : Nat)
    (xd : Option Nat) (md : List Nat) (cur : Nat) (hp : s.isPaused = false)
    (h1 : cur + cfg.MinTimelock ≤ t) (h2 : t ≤ cur + cfg.MaxTimelock)
    (heq : maker = taker) :
    create_escrow cfg s (.signed maker) sh t taker aty amt xd md cur
      = .error .InvalidTaker := by
  simp [create_escrow, signerOf, hp, h1, h2, heq]

theorem create_dup_err (cfg : Config) (s : EscrowStore)
    (maker taker : Acct) (sh t : Nat) (aty : AssetType) (amt : Nat)
    (xd : Option Nat) (md : List Nat) (cur : Nat) (hp : s.isPaused = false)
    (h1 : cur + cfg.MinTimelock ≤ t) (h2 : t ≤ cur + cfg.MaxTimelock)
    (hne : maker ≠ taker) (hdup : (s.escrowsBySecret sh).isSome = true) :
    create_escrow cfg s (.signed maker) sh t taker aty amt xd md cur
      = .error .DuplicateSecretHash := by
  simp [create_escrow, signerOf, hp, h1, h2, hne, hdup]

theorem create_maker_cap_err (cfg : Config) (s : EscrowStore)
    (maker taker : Acct) (sh t : Nat) (aty : AssetType) (amt : Nat)
    (xd : Option Nat) (md : List Nat) (cur : Nat) (hp : s.isPaused = false)
    (h1 : cur + cfg.MinTimelock ≤ t) (h2 : t ≤ cur + cfg.MaxTimelock)
    (hne : maker ≠ taker) (hdup : s.escrowsBySecret sh = Option.none)
    (hcap : cfg.MaxEscrowsPerAccount ≤ (s.escrowsByMaker maker).length) :
    create_escrow cfg s (.signed maker) sh t taker aty amt xd md cur
      = .error .TooManyEscrows := by
  simp [create_escrow, signerOf, hp, h1, h2, hne, hdup, Nat.not_lt.mpr hcap]

theorem create_zero_amount_err (cfg : Config) (s : EscrowStore)
    (maker taker : Acct) (sh t : Nat) (aty : AssetType)
    (xd : Option Nat) (md : List Nat) (cur : Nat) (hp : s.isPaused = false)
    (h1 : cur + cfg.MinTimelock ≤ t) (h2 : t ≤ cur + cfg.MaxTimelock)
    (hne : maker ≠ taker) (hdup : s.escrowsBySecret sh = Option.none)
    (hcap : (s.escrowsByMaker maker).length < cfg.MaxEscrowsPerAccount) :
    create_escrow cfg s (.signed maker) sh t taker aty 0 xd md cur
      = .error .InvalidAsset := by
  simp [create_escrow, signerOf, hp, h1, h2, hne, hdup, hcap]

theorem create_taker_cap_err (cfg : Config) (s : EscrowStore)
    (maker taker : Acct) (sh t : Nat) (aty : AssetType) (amt : Nat)
    (xd : Option Nat) (md : List Nat) (cur : Nat) (hp : s.isPaused = false)
    (h1 : cur + cfg.MinTimelock ≤ t) (h2 : t ≤ cur + cfg.MaxTimelock)
    (hne : maker ≠ taker) (hdup : s.escrowsBySecret sh = Option.none)
    (hcap : (s.escrowsByMaker maker).length < cfg.MaxEscrowsPerAccount)
    (hamt : amt ≠ 0)
    (htak : cfg.MaxEscrowsPerAccount ≤ (s.escrowsByTaker taker).length) :
    create_escrow cfg s (.signed maker) sh t taker aty amt xd md cur
      = .error .TooManyEscrows := by
  simp [create_escrow, signerOf, hp, h1, h2, hne, hdup, hcap, hamt, tryPush,
        upd, Nat.not_lt.mpr htak]

theorem create_no_dup_err (cfg : Config) (s : EscrowStore)
    (maker taker : Acct) (sh t : Nat) (aty : AssetType) (amt : Nat)
    (xd : Option Nat) (md : List Nat) (cur : Nat)
    (hdup : s.escrowsBySecret sh = Option.none) :
    create_escrow cfg s (.signed maker) sh t taker aty amt xd md cur
      ≠ .error .DuplicateSecretHash := by
  simp only [create_escrow, signerOf, hdup]
  split_ifs <;> simp_all [tryPush]
  all_goals (split <;> simp_all)

theorem create_ok_maker_cap (cfg : Config) (s s' : EscrowStore)
    (maker taker : Acct) (sh t : Nat) (aty : AssetType) (amt : Nat)
    (xd : Option Nat) (md : List Nat) (cur : Nat)
    (h : create_escrow cfg s (.signed maker) sh t taker aty amt xd md cur = .ok s') :
    (s.escrowsByMaker maker).length < cfg.MaxEscrowsPerAccount := by
  by_contra hcap
  simp only [create_escrow, signerOf] at h
  split_ifs at h <;> simp_all

theorem create_ok_taker_cap (cfg : Config) (s s' : EscrowStore)
    (maker taker : Acct) (sh t : Nat) (aty : AssetType) (amt : Nat)
    (xd : Option Nat) (md : List Nat) (cur : Nat)
    (h : create_escrow cfg s (.signed maker) sh t taker aty amt xd md cur = .ok s') :
    (s.escrowsByTaker taker).length < cfg.MaxEscrowsPerAccount := by
  by_contra hcap
  rw [Nat.not_lt] at hcap
  simp only [create_escrow, signerOf] at h
  split_ifs at h <;> simp_all [tryPush, upd]
  rw [if_neg (Nat.not_lt.mpr hcap)] at h
  simp at h

end FusionEscrow


namespace FusionEscrow

/-- Ledger key of a fungible asset tag; `Option.none` for NFTs. -/
def fungKey : AssetType → Option AssetKey
  | .Native => some .native
  | .Asset i => some (.asset i)
  | .Nft _ _ => Option.none

theorem assetMove_ok_of (s : EscrowStore) (aty : AssetType) (src dst : Acct)
    (amt : Nat) (k : AssetKey) (hk : fungKey aty = some k)
    (hb : amt ≤ s.balances k src) :
    assetMove s aty src dst amt
      = .ok { s with balances := upd s.balances k (moveBal (s.balances k) src dst amt) } := by
  cases aty <;> simp_all [assetMove, fungKey] <;> subst hk <;> simp_all

theorem fund_ok_frame (s s' : EscrowStore) (origin : Origin) (id cur : Nat)
    (h : fund_escrow s origin id cur = .ok s') :
    s'.escrowsByMaker = s.escrowsByMaker ∧ s'.escrowsByTaker = s.escrowsByTaker
      ∧ s'.escrowsBySecret = s.escrowsBySecret ∧ s'.nextEscrowId = s.nextEscrowId := by
  unfold fund_escrow at h
  repeat' split at h
  all_goals simp_all
  rename_i sx heq
  obtain ⟨-, h2, h3, h4, h5, -⟩ := assetMove_frame _ _ _ _ _ _ heq
  rw [← h]
  simp_all

theorem complete_ok_frame (blake2 : Nat → Nat) (s s' : EscrowStore)
    (origin : Origin) (id sec cur : Nat)
    (h : complete_escrow blake2 s origin id sec cur = .ok s') :
    s'.escrowsByMaker = s.escrowsByMaker ∧ s'.escrowsByTaker = s.escrowsByTaker
      ∧ s'.escrowsBySecret = s.escrowsBySecret ∧ s'.nextEscrowId = s.nextEscrowId := by
  unfold complete_escrow at h
  repeat' split at h
  all_goals simp_all
  rename_i sx heq
  obtain ⟨-, h2, h3, h4, h5, -⟩ := assetMove_frame _ _ _ _ _ _ heq
  rw [← h]
  simp_all

theorem cancel_ok_frame (s s' : EscrowStore) (origin : Origin) (id cur : Nat)
    (h : cancel_escrow s origin id cur = .ok s') :
    s'.escrowsByMaker = s.escrowsByMaker ∧ s'.escrowsByTaker = s.escrowsByTaker
      ∧ s'.escrowsBySecret = s.escrowsBySecret ∧ s'.nextEscrowId = s.nextEscrowId := by
  unfold cancel_escrow at h
  repeat' split at h
  all_goals simp_all
  rename_i sx heq
  obtain ⟨-, h2, h3, h4, h5, -⟩ := assetMove_frame _ _ _ _ _ _ heq
  rw [← h]
  simp_all

theorem cbf_ok_frame (s s' : EscrowStore) (origin : Origin) (id : Nat)
    (h : cancel_before_funding s origin id = .ok s') :
    s'.escrowsByMaker = s.escrowsByMaker ∧ s'.escrowsByTaker = s.escrowsByTaker
      ∧ s'.nextEscrowId = s.nextEscrowId ∧ s'.balances = s.balances := by
  unfold cancel_before_funding at h
  repeat' split at h
  all_goals simp_all
  rw [← h]
  simp_all

end FusionEscrow


namespace FusionEscrow

theorem complete_success (blake2 : Nat → Nat) (s : EscrowStore) (who : Acct)
    (id sec cur : Nat) (e : EscrowDetails) (k : AssetKey)
    (hp : s.isPaused = false) (he : s.escrows id = some e)
    (hst : e.state = .Active) (ht : cur < e.timelock)
    (hh : blake2 sec = e.secret_hash) (hk : fungKey e.asset_type = some k)
    (hb : e.amount ≤ s.balances k .sovereign) :
    complete_escrow blake2 s (.signed who) id sec cur
      = .ok { s with
          escrows := upd s.escrows id (some { e with state := .Completed }),
          balances := upd s.balances k (moveBal (s.balances k) .sovereign e.taker e.amount) } := by
  have hm := assetMove_ok_of s e.asset_type .sovereign e.taker e.amount k hk hb
  simp [complete_escrow, signerOf, hp, he, hst, ht, hh, hm]

theorem cancel_success (s : EscrowStore) (id cur : Nat) (e : EscrowDetails)
    (k : AssetKey) (hp : s.isPaused = false) (he : s.escrows id = some e)
    (hst : e.state = .Active) (ht : e.timelock ≤ cur)
    (hk : fungKey e.asset_type = some k)
    (hb : e.amount ≤ s.balances k .sovereign) :
    cancel_escrow s (.signed e.maker) id cur
      = .ok { s with
          escrows := upd s.escrows id (some { e with state := .Cancelled }),
          balances := upd s.balances k (moveBal (s.balances k) .sovereign e.maker e.amount) } := by
  have hm := assetMove_ok_of s e.asset_type .sovereign e.maker e.amount k hk hb
  simp [cancel_escrow, signerOf, hp, he, hst, ht, hm]

theorem cbf_success (s : EscrowStore) (id : Nat) (e : EscrowDetails)
    (hp : s.isPaused = false) (he : s.escrows id = some e)
    (hst : e.state = .Created) :
    cancel_before_funding s (.signed e.maker) id
      = .ok { s with
          escrows := upd s.escrows id (some { e with state := .Cancelled }),
          escrowsBySecret := upd s.escrowsBySecret e.secret_hash Option.none } := by
  simp [cancel_before_funding, signerOf, hp, he, hst]

theorem fund_timelock_iff (s : EscrowStore) (id cur : Nat) (e : EscrowDetails)
    (hp : s.isPaused = false) (he : s.escrows id = some e)
    (hst : e.state = .Created) :
    (fund_escrow s (.signed e.maker) id cur = .error .TimelockExpired
      ↔ e.timelock ≤ cur) := by
  constructor
  · intro h
    by_contra hlt
    rw [Nat.not_le] at hlt
    simp [fund_escrow, signerOf, hp, he, hst, hlt] at h
    cases hm : assetMove s e.asset_type e.maker Acct.sovereign e.amount with
    | error err =>
        obtain h1 | h1 := assetMove_err _ _ _ _ _ _ hm <;> simp_all
    | ok sx => simp_all
  · intro h
    simp [fund_escrow, signerOf, hp, he, hst, Nat.not_lt.mpr h]

theorem complete_timelock_iff (blake2 : Nat → Nat) (s : EscrowStore)
    (who : Acct) (id sec cur : Nat) (e : EscrowDetails)
    (hp : s.isPaused = false) (he : s.escrows id = some e)
    (hst : e.state = .Active) :
    (complete_escrow blake2 s (.signed who) id sec cur = .error .TimelockExpired
      ↔ e.timelock ≤ cur) := by
  constructor
  · intro h
    by_contra hlt
    rw [Nat.not_le] at hlt
    simp [complete_escrow, signerOf, hp, he, hst, hlt] at h
    by_cases hh : blake2 sec = e.secret_hash
    · simp [hh] at h
      cases hm : assetMove s e.asset_type Acct.sovereign e.taker e.amount with
      | error err =>
          obtain h1 | h1 := assetMove_err _ _ _ _ _ _ hm <;> simp_all
      | ok sx => simp_all
    · simp [hh] at h
  · intro h
    simp [complete_escrow, signerOf, hp, he, hst, Nat.not_lt.mpr h]

theorem cancel_timelock_iff (s : EscrowStore) (id cur : Nat) (e : EscrowDetails)
    (hp : s.isPaused = false) (he : s.escrows id = some e)
    (hst : e.state = .Active) :
    (cancel_escrow s (.signed e.maker) id cur = .error .TimelockNotExpired
      ↔ cur < e.timelock) := by
  constructor
  · intro h
    by_contra hge
    rw [Nat.not_lt] at hge
    simp [cancel_escrow, signerOf, hp, he, hst, Nat.not_lt.mpr hge] at h
    cases hm : assetMove s e.asset_type Acct.sovereign e.maker e.amount with
    | error err =>
        obtain h1 | h1 := assetMove_err _ _ _ _ _ _ hm <;> simp_all
    | ok sx => simp_all
  · intro h
    simp [cancel_escrow, signerOf, hp, he, hst, Nat.not_le.mpr h]

theorem complete_ok_facts (blake2 : Nat → Nat) (s s' : EscrowStore)
    (origin : Origin) (id sec cur : Nat) (e : EscrowDetails)
    (he : s.escrows id = some e)
    (h : complete_escrow blake2 s origin id sec cur = .ok s') :
    e.state = .Active ∧ cur < e.timelock := by
  unfold complete_escrow at h
  repeat' split at h
  all_goals simp_all

theorem cancel_ok_facts (s s' : EscrowStore) (origin : Origin) (id cur : Nat)
    (e : EscrowDetails) (he : s.escrows id = some e)
    (h : cancel_escrow s origin id cur = .ok s') :
    e.state = .Active ∧ e.timelock ≤ cur := by
  unfold cancel_escrow at h
  repeat' split at h
  all_goals simp_all

end FusionEscrow

end Polkavex

namespace Polkavex

/-- `storeA` with the taker index list of `user 2` already at the
`cfg0` capacity of 2. -/
def storeT : FusionEscrow.EscrowStore :=
  { storeA with escrowsByTaker := fun a => if a = .user 2 then [1, 9] else [] }

/-- `storeA` with the circuit breaker engaged. -/
def storePaused : FusionEscrow.EscrowStore := { storeA with isPaused := true }

/-- C2 counterexample: the fusion pallet's `cancel_escrow` has no pause
check — with the pause flag set, the creator cancels a `Created` escrow
and the record changes state, instead of failing with a pause error. -/
theorem c2_counterexample :
    storeFPaused.emergencyPaused = true
    ∧ Fusion.cancel_escrow storeFPaused (.signed (.user 1)) 1 [] 10
        = .ok { storeFPaused with
            escrows := upd storeFPaused.escrows 1
              (some { escFCreated with state := .Cancelled, updated_at := 10 }) } :=
  ⟨rfl, rfl⟩

/-- C2 (amended): in fusion-escrow, while `paused = true` every
state-changing operation other than `toggle_pause` fails with
`PalletPaused` for every signed caller and leaves the store unchanged,
regardless of the escrow's state or the block; in the fusion pallet,
`cancel_escrow` is not gated by the pause flag and can succeed while
paused. -/
theorem c2_pause_gate :
    (∀ cfg (s : FusionEscrow.EscrowStore) maker taker sh t aty amt xd md cur,
        s.isPaused = true →
        FusionEscrow.create_escrow cfg s (.signed maker) sh t taker aty amt xd md cur
            = .error .PalletPaused
        ∧ FusionEscrow.dispatchState
            (FusionEscrow.create_escrow cfg s (.signed maker) sh t taker aty amt xd md cur) s = s)
  ∧ (∀ (s : FusionEscrow.EscrowStore) who id cur, s.isPaused = true →
        FusionEscrow.fund_escrow s (.signed who) id cur = .error .PalletPaused
        ∧ FusionEscrow.dispatchState (FusionEscrow.fund_escrow s (.signed who) id cur) s = s)
  ∧ (∀ blake2 (s : FusionEscrow.EscrowStore) who id sec cur, s.isPaused = true →
        FusionEscrow.complete_escrow blake2 s (.signed who) id sec cur = .error .PalletPaused
        ∧ FusionEscrow.dispatchState
            (FusionEscrow.complete_escrow blake2 s (.signed who) id sec cur) s = s)
  ∧ (∀ (s : FusionEscrow.EscrowStore) who id cur, s.isPaused = true →
        FusionEscrow.cancel_escrow s (.signed who) id cur = .error .PalletPaused
        ∧ FusionEscrow.dispatchState (FusionEscrow.cancel_escrow s (.signed who) id cur) s = s)
  ∧ (∀ (s : FusionEscrow.EscrowStore) who id, s.isPaused = true →
        FusionEscrow.cancel_before_funding s (.signed who) id = .error .PalletPaused
        ∧ FusionEscrow.dispatchState (FusionEscrow.cancel_before_funding s (.signed who) id) s = s)
  ∧ (∀ (fs : Fusion.FusionStore) who id e cur reason, fs.emergencyPaused = true →
        fs.escrows id = some e → e.state = .Created → who = e.creator →
        isOk (Fusion.cancel_escrow fs (.signed who) id reason cur) = true) := by
  refine ⟨?_, ?_, ?_, ?_, ?_, ?_⟩
  · intro cfg s maker taker sh t aty amt xd md cur hp
    have h := FusionEscrow.create_paused cfg s maker taker sh t aty amt xd md cur hp
    exact ⟨h, by rw [h]; rfl⟩
  · intro s who id cur hp
    have h := FusionEscrow.fund_paused s who id cur hp
    exact ⟨h, by rw [h]; rfl⟩
  · intro blake2 s who id sec cur hp
    have h := FusionEscrow.complete_paused blake2 s who id sec cur hp
    exact ⟨h, by rw [h]; rfl⟩
  · intro s who id cur hp
    have h := FusionEscrow.cancel_paused s who id cur hp
    exact ⟨h, by rw [h]; rfl⟩
  · intro s who id hp
    have h := FusionEscrow.cbf_paused s who id hp
    exact ⟨h, by rw [h]; rfl⟩
  · intro fs who id e cur reason hp he hst hwho
    subst hwho
    simp [Fusion.cancel_escrow, signerOf, he, hst, isOk]

/-- C2 witness: the five fusion-escrow operations on a concrete paused
store, plus the fusion cancel that succeeds while paused. -/
theorem c2_witness :
    FusionEscrow.create_escrow cfg0 storePaused (.signed (.user 3)) 99 20 (.user 4)
        .Native 5 Option.none [] 1 = .error .PalletPaused
    ∧ FusionEscrow.fund_escrow storePaused (.signed (.user 1)) 1 10 = .error .PalletPaused
    ∧ FusionEscrow.complete_escrow blakeFix storePaused (.signed (.user 2)) 1 70 10
        = .error .PalletPaused
    ∧ FusionEscrow.cancel_escrow storePaused (.signed (.user 1)) 1 60 = .error .PalletPaused
    ∧ FusionEscrow.cancel_before_funding storePaused (.signed (.user 1)) 1 = .error .PalletPaused
    ∧ isOk (Fusion.cancel_escrow storeFPaused (.signed (.user 1)) 1 [] 10) = true :=
  ⟨(c2_pause_gate.1 cfg0 storePaused (.user 3) (.user 4) 99 20 .Native 5 Option.none [] 1 rfl).1,
   (c2_pause_gate.2.1 storePaused (.user 1) 1 10 rfl).1,
   (c2_pause_gate.2.2.1 blakeFix storePaused (.user 2) 1 70 10 rfl).1,
   (c2_pause_gate.2.2.2.1 storePaused (.user 1) 1 60 rfl).1,
   (c2_pause_gate.2.2.2.2.1 storePaused (.user 1) 1 rfl).1,
   c2_pause_gate.2.2.2.2.2 storeFPaused (.user 1) 1 escFCreated 10 [] rfl rfl rfl rfl⟩

/-- C4 (confirmed): when `create_escrow` fails with `TooManyEscrows`
because the taker's index list is at capacity — every earlier check
passing — the dispatch leaves the entire store (primary map, both index
lists, `by_secret`, `next_id`) exactly as it was. -/
theorem c4_taker_cap_all_or_nothing :
    ∀ cfg (s : FusionEscrow.EscrowStore) maker taker sh t aty amt xd md cur,
      s.isPaused = false → cur + cfg.MinTimelock ≤ t → t ≤ cur + cfg.MaxTimelock →
      maker ≠ taker → s.escrowsBySecret sh = Option.none →
      (s.escrowsByMaker maker).length < cfg.MaxEscrowsPerAccount → amt ≠ 0 →
      cfg.MaxEscrowsPerAccount ≤ (s.escrowsByTaker taker).length →
      FusionEscrow.create_escrow cfg s (.signed maker) sh t taker aty amt xd md cur
          = .error .TooManyEscrows
      ∧ FusionEscrow.dispatchState
          (FusionEscrow.create_escrow cfg s (.signed maker) sh t taker aty amt xd md cur) s = s := by
  intro cfg s maker taker sh t aty amt xd md cur hp h1 h2 hne hdup hcap hamt htak
  have h := FusionEscrow.create_taker_cap_err cfg s maker taker sh t aty amt xd md cur
    hp h1 h2 hne hdup hcap hamt htak
  exact ⟨h, by rw [h]; rfl⟩

/-- C4 witness: `user 2`'s taker list is full in `storeT`; the create by
`user 3` fails with `TooManyEscrows` and the store is untouched. -/
theorem c4_witness :
    FusionEscrow.create_escrow cfg0 storeT (.signed (.user 3)) 99 20 (.user 2)
        .Native 5 Option.none [] 1 = .error .TooManyEscrows
    ∧ FusionEscrow.dispatchState
        (FusionEscrow.create_escrow cfg0 storeT (.signed (.user 3)) 99 20 (.user 2)
          .Native 5 Option.none [] 1) storeT = storeT :=
  c4_taker_cap_all_or_nothing cfg0 storeT (.user 3) (.user 2) 99 20 .Native 5 Option.none [] 1
    rfl (by decide) (by decide) (by decide) rfl (by decide) (by decide) (by decide)

/-- C6 counterexample: in the fusion pallet a plain signed caller
executes `emergency_pause` successfully and the flag flips to `true`,
instead of failing with `BadOrigin`. -/
theorem c6_counterexample :
    storeF.emergencyPaused = false
    ∧ Fusion.emergency_pause storeF (.signed (.user 7))
        = .ok { storeF with emergencyPaused := true } :=
  ⟨rfl, rfl⟩

/-- C6 (amended): fusion-escrow's `toggle_pause` is root-only — every
signed caller gets `BadOrigin` and the store is unchanged, while a root
call flips the flag and alters no escrow record or balance; the fusion
pallet's `emergency_pause`, by contrast, accepts any signed caller. -/
theorem c6_pause_origin :
    (∀ (s : FusionEscrow.EscrowStore) (who : Acct),
        FusionEscrow.toggle_pause s (.signed who) = .error .BadOrigin
        ∧ FusionEscrow.dispatchState (FusionEscrow.toggle_pause s (.signed who)) s = s)
  ∧ (∀ s : FusionEscrow.EscrowStore,
        FusionEscrow.toggle_pause s .root = .ok { s with isPaused := !s.isPaused })
  ∧ (∀ s : FusionEscrow.EscrowStore,
        (FusionEscrow.dispatchState (FusionEscrow.toggle_pause s .root) s).escrows = s.escrows
        ∧ (FusionEscrow.dispatchState (FusionEscrow.toggle_pause s .root) s).balances = s.balances)
  ∧ (∀ (fs : Fusion.FusionStore) (who : Acct),
        Fusion.emergency_pause fs (.signed who) = .ok { fs with emergencyPaused := true }) :=
  ⟨fun _ _ => ⟨rfl, rfl⟩, fun _ => rfl, fun _ => ⟨rfl, rfl⟩, fun _ _ => rfl⟩

/-- C7 counterexample: with `maker = taker` and an out-of-window timelock
the result is `InvalidTimelock`, not the spec's first-listed
`InvalidTaker`; with `maker ≠ taker`, `amount = 0`, an in-window timelock
and a duplicate digest the result is `DuplicateSecretHash`, not
`InvalidAsset`. -/
theorem c7_counterexample :
    FusionEscrow.create_escrow cfg0 storeA (.signed (.user 1)) 99 5 (.user 1)
        .Native 5 Option.none [] 1 = .error .InvalidTimelock
    ∧ FusionEscrow.Err.InvalidTimelock ≠ FusionEscrow.Err.InvalidTaker
    ∧ FusionEscrow.create_escrow cfg0 storeA (.signed (.user 3)) 77 20 (.user 4)
        .Native 0 Option.none [] 1 = .error .DuplicateSecretHash
    ∧ FusionEscrow.Err.DuplicateSecretHash ≠ FusionEscrow.Err.InvalidAsset :=
  ⟨rfl, by decide, rfl, by decide⟩

/-- C7 (amended): `create_escrow` evaluates its preconditions in the
order: timelock window, `maker ≠ taker`, duplicate digest, maker's list
capacity, non-zero amount — first failure wins in that order. -/
theorem c7_check_order :
    (∀ cfg (s : FusionEscrow.EscrowStore) maker taker sh t aty amt xd md cur,
        s.isPaused = false →
        ¬ (cur + cfg.MinTimelock ≤ t ∧ t ≤ cur + cfg.MaxTimelock) →
        FusionEscrow.create_escrow cfg s (.signed maker) sh t taker aty amt xd md cur
          = .error .InvalidTimelock)
  ∧ (∀ cfg (s : FusionEscrow.EscrowStore) maker sh t aty amt xd md cur,
        s.isPaused = false → cur + cfg.MinTimelock ≤ t → t ≤ cur + cfg.MaxTimelock →
        FusionEscrow.create_escrow cfg s (.signed maker) sh t maker aty amt xd md cur
          = .error .InvalidTaker)
  ∧ (∀ cfg (s : FusionEscrow.EscrowStore) maker taker sh t aty amt xd md cur,
        s.isPaused = false → cur + cfg.MinTimelock ≤ t → t ≤ cur + cfg.MaxTimelock →
        maker ≠ taker → (s.escrowsBySecret sh).isSome = true →
        FusionEscrow.create_escrow cfg s (.signed maker) sh t taker aty amt xd md cur
          = .error .DuplicateSecretHash)
  ∧ (∀ cfg (s : FusionEscrow.EscrowStore) maker taker sh t aty amt xd md cur,
        s.isPaused = false → cur + cfg.MinTimelock ≤ t → t ≤ cur + cfg.MaxTimelock →
        maker ≠ taker → s.escrowsBySecret sh = Option.none →
        cfg.MaxEscrowsPerAccount ≤ (s.escrowsByMaker maker).length →
        FusionEscrow.create_escrow cfg s (.signed maker) sh t taker aty amt xd md cur
          = .error .TooManyEscrows)
  ∧ (∀ cfg (s : FusionEscrow.EscrowStore) maker taker sh t aty xd md cur,
        s.isPaused = false → cur + cfg.MinTimelock ≤ t → t ≤ cur + cfg.MaxTimelock →
        maker ≠ taker → s.escrowsBySecret sh = Option.none →
        (s.escrowsByMaker maker).length < cfg.MaxEscrowsPerAccount →
        FusionEscrow.create_escrow cfg s (.signed maker) sh t taker aty 0 xd md cur
          = .error .InvalidAsset) := by
  refine ⟨?_, ?_, ?_, ?_, ?_⟩
  · intro cfg s maker taker sh t aty amt xd md cur hp hout
    exact FusionEscrow.create_timelock_err cfg s maker taker sh t aty amt xd md cur hp hout
  · intro cfg s maker sh t aty amt xd md cur hp h1 h2
    exact FusionEscrow.create_invalid_taker cfg s maker maker sh t aty amt xd md cur hp h1 h2 rfl
  · intro cfg s maker taker sh t aty amt xd md cur hp h1 h2 hne hdup
    exact FusionEscrow.create_dup_err cfg s maker taker sh t aty amt xd md cur hp h1 h2 hne hdup
  · intro cfg s maker taker sh t aty amt xd md cur hp h1 h2 hne hdup hcap
    exact FusionEscrow.create_maker_cap_err cfg s maker taker sh t aty amt xd md cur hp h1 h2 hne hdup hcap
  · intro cfg s maker taker sh t aty xd md cur hp h1 h2 hne hdup hcap
    exact FusionEscrow.create_zero_amount_err cfg s maker taker sh t aty xd md cur hp h1 h2 hne hdup hcap

/-- C7 witness: in-window timelock with `maker = taker` gives
`InvalidTaker`; zero amount after all earlier checks pass gives
`InvalidAsset`. -/
theorem c7_witness :
    FusionEscrow.create_escrow cfg0 storeA (.signed (.user 1)) 99 20 (.user 1)
        .Native 5 Option.none [] 1 = .error .InvalidTaker
    ∧ FusionEscrow.create_escrow cfg0 storeA (.signed (.user 3)) 99 20 (.user 4)
        .Native 0 Option.none [] 1 = .error .InvalidAsset :=
  ⟨c7_check_order.2.1 cfg0 storeA (.user 1) 99 20 .Native 5 Option.none [] 1 rfl (by decide) (by decide),
   c7_check_order.2.2.2.2 cfg0 storeA (.user 3) (.user 4) 99 20 .Native Option.none [] 1
     rfl (by decide) (by decide) (by decide) rfl (by decide)⟩

/-- C9 (confirmed): with a signed maker and the pallet not paused,
`create_escrow` fails with `InvalidTimelock` exactly when the requested
timelock lies outside the inclusive window
`[current_block + MinTimelock, current_block + MaxTimelock]`; hence
`current_block + MinTimelock` itself is accepted and one block below it
is rejected. -/
theorem c9_create_timelock_window (cfg : FusionEscrow.Config)
    (s : FusionEscrow.EscrowStore) (maker taker : Acct) (sh t : Nat)
    (aty : FusionEscrow.AssetType) (amt : Nat) (xd : Option Nat)
    (md : List Nat) (cur : Nat) (hp : s.isPaused = false) :
    FusionEscrow.create_escrow cfg s (.signed maker) sh t taker aty amt xd md cur
        = .error .InvalidTimelock
      ↔ ¬ (cur + cfg.MinTimelock ≤ t ∧ t ≤ cur + cfg.MaxTimelock) := by
  constructor
  · intro h hin
    exact FusionEscrow.create_no_timelock_err cfg s maker taker sh t aty amt xd md cur
      hp hin.1 hin.2 h
  · intro h
    exact FusionEscrow.create_timelock_err cfg s maker taker sh t aty amt xd md cur hp h

/-- C9 witness: with `MinTimelock = 10` at block 1, timelock 11 is not
rejected for its window while timelock 10 is. -/
theorem c9_witness :
    FusionEscrow.create_escrow cfg0 storeA (.signed (.user 3)) 99 11 (.user 4)
        .Native 5 Option.none [] 1 ≠ .error .InvalidTimelock
    ∧ FusionEscrow.create_escrow cfg0 storeA (.signed (.user 3)) 99 10 (.user 4)
        .Native 5 Option.none [] 1 = .error .InvalidTimelock := by
  constructor
  · intro h
    exact (c9_create_timelock_window cfg0 storeA (.user 3) (.user 4) 99 11 .Native 5
      Option.none [] 1 rfl).mp h (by decide)
  · exact (c9_create_timelock_window cfg0 storeA (.user 3) (.user 4) 99 10 .Native 5
      Option.none [] 1 rfl).mpr (by decide)

end Polkavex

namespace Polkavex

namespace FusionEscrow

theorem complete_ok_found (blake2 : Nat → Nat) (s s' : EscrowStore)
    (origin : Origin) (id sec cur : Nat)
    (h : complete_escrow blake2 s origin id sec cur = .ok s') :
    ∃ e, s.escrows id = some e := by
  cases hs : s.escrows id with
  | none =>
      exfalso
      unfold complete_escrow at h
      repeat' split at h
      all_goals simp_all
  | some e => exact ⟨e, rfl⟩

end FusionEscrow

theorem isOk_ne_error {ε α : Type} (r : Except ε α) (e : ε) (h : isOk r = true) :
    r ≠ .error e := by
  cases r <;> simp_all [isOk]

/-- `escA` still unfunded. -/
def escC : FusionEscrow.EscrowDetails := { escA with state := .Created }

/-- `storeA` with the escrow under id 1 still in `Created`. -/
def storeC : FusionEscrow.EscrowStore :=
  { storeA with escrows := fun i => if i = 1 then some escC else Option.none }

/-- The store produced by completing escrow 1 of `storeA`. -/
def storeAafterComplete : FusionEscrow.EscrowStore :=
  { storeA with
      escrows := upd storeA.escrows 1 (some { escA with state := .Completed }),
      balances := upd storeA.balances .native
        (moveBal (storeA.balances .native) .sovereign escA.taker escA.amount) }

/-- The record created by a fresh `create_escrow` on `storeA`. -/
def escNew : FusionEscrow.EscrowDetails :=
  { secret_hash := 99, maker := .user 3, taker := .user 4, timelock := 20,
    asset_type := .Native, amount := 5, state := .Created,
    xcm_destination := Option.none, created_block := 1, metadata := [] }

/-- The store produced by that fresh `create_escrow` on `storeA`. -/
def storeAafterCreate : FusionEscrow.EscrowStore :=
  { storeA with
      nextEscrowId := u32SaturatingAdd storeA.nextEscrowId 1,
      escrows := upd storeA.escrows 2 (some escNew),
      escrowsBySecret := upd storeA.escrowsBySecret 99 (some 2),
      escrowsByMaker := upd storeA.escrowsByMaker (.user 3)
        (storeA.escrowsByMaker (.user 3) ++ [2]),
      escrowsByTaker := upd storeA.escrowsByTaker (.user 4)
        (storeA.escrowsByTaker (.user 4) ++ [2]) }

/-- C1 counterexample: in the fusion pallet, on an `Active`, funded
escrow, with the valid preimage and the timelock not reached, a signed
caller other than the stored beneficiary is rejected with
`NotBeneficiary` — completion does not succeed for arbitrary signed
callers. -/
theorem c1_counterexample :
    escF.state = .Active
    ∧ sha2Fix 42 = escF.hashlock
    ∧ 10 < escF.timelock
    ∧ Fusion.complete_escrow sha2Fix storeF (.signed (.user 7)) 1 42 10
        = .error .NotBeneficiary :=
  ⟨rfl, rfl, by decide, rfl⟩

/-- C1 (amended): in fusion-escrow, any signed caller presenting the
valid preimage completes an `Active` escrow before the timelock, and the
amount is credited to the stored taker — an account that is neither the
sovereign nor the taker (in particular a caller distinct from the taker)
keeps its balance; in the fusion pallet, `complete_escrow` additionally
requires the caller to equal the stored beneficiary, rejecting everyone
else with `NotBeneficiary`. -/
theorem c1_completion_settlement :
    (∀ (blake2 : Nat → Nat) (s : FusionEscrow.EscrowStore) (who : Acct)
        (id sec cur : Nat) (e : FusionEscrow.EscrowDetails) (k : AssetKey),
      s.isPaused = false → s.escrows id = some e → e.state = .Active →
      cur < e.timelock → blake2 sec = e.secret_hash →
      FusionEscrow.fungKey e.asset_type = some k →
      e.amount ≤ s.balances k .sovereign → e.taker ≠ .sovereign →
      ∃ s', FusionEscrow.complete_escrow blake2 s (.signed who) id sec cur = .ok s'
        ∧ s'.escrows id = some { e with state := .Completed }
        ∧ s'.balances k e.taker = s.balances k e.taker + e.amount
        ∧ (∀ a, a ≠ .sovereign → a ≠ e.taker → s'.balances k a = s.balances k a))
  ∧ (∀ (sha2 : Nat → Nat) (fs : Fusion.FusionStore) (who : Acct)
        (id sec cur : Nat) (e : Fusion.EscrowF),
      fs.emergencyPaused = false → fs.escrows id = some e → e.state = .Active →
      who ≠ e.beneficiary →
      Fusion.complete_escrow sha2 fs (.signed who) id sec cur = .error .NotBeneficiary) := by
  constructor
  · intro blake2 s who id sec cur e k hp he hst ht hh hk hb htk
    refine ⟨_, FusionEscrow.complete_success blake2 s who id sec cur e k hp he hst ht hh hk hb,
      ?_, ?_, ?_⟩
    · simp [upd]
    · simp [upd, moveBal, htk]
    · intro a ha1 ha2
      simp [upd, moveBal, ha1, ha2]
  · intro sha2 fs who id sec cur e hp he hst hwho
    simp [Fusion.complete_escrow, signerOf, hp, he, hst, Ne.symm hwho]

/-- C1 witness: `user 3`, who is neither maker nor taker of escrow 1,
completes it with the preimage; the 1000 units go to taker `user 2`; the
fusion side rejects `user 3` with `NotBeneficiary`. -/
theorem c1_witness :
    (∃ s', FusionEscrow.complete_escrow blakeFix storeA (.signed (.user 3)) 1 70 10 = .ok s'
        ∧ s'.escrows 1 = some { escA with state := .Completed }
        ∧ s'.balances .native escA.taker = storeA.balances .native escA.taker + escA.amount
        ∧ (∀ a, a ≠ .sovereign → a ≠ escA.taker →
            s'.balances .native a = storeA.balances .native a))
    ∧ Fusion.complete_escrow sha2Fix storeF (.signed (.user 3)) 1 42 10
        = .error .NotBeneficiary :=
  ⟨c1_completion_settlement.1 blakeFix storeA (.user 3) 1 70 10 escA .native
      rfl rfl rfl (by decide) rfl rfl (by decide) (by decide),
   c1_completion_settlement.2 sha2Fix storeF (.user 3) 1 42 10 escF rfl rfl rfl (by decide)⟩

/-- C3 counterexample: `fund_escrow` on an `Active` escrow at or past its
timelock fails with `InvalidEscrowState`, not `TimelockExpired` as the
claim asserts for Active escrows. -/
theorem c3_counterexample :
    escA.state = .Active
    ∧ escA.timelock ≤ 50
    ∧ FusionEscrow.fund_escrow storeA (.signed (.user 1)) 1 50 = .error .InvalidEscrowState
    ∧ FusionEscrow.Err.InvalidEscrowState ≠ FusionEscrow.Err.TimelockExpired :=
  ⟨rfl, by decide, rfl, by decide⟩

/-- C3 (amended): funding applies to `Created` escrows and completion to
`Active` ones; with the other preconditions met, each fails with
`TimelockExpired` exactly when `current_block ≥ timelock`; the
post-timelock refund fails with `TimelockNotExpired` exactly when
`current_block < timelock`; and no state and block height permit both a
successful completion and a successful refund of the same escrow. -/
theorem c3_timelock_discipline :
    (∀ (s : FusionEscrow.EscrowStore) (id cur : Nat) (e : FusionEscrow.EscrowDetails),
        s.isPaused = false → s.escrows id = some e → e.state = .Created →
        (FusionEscrow.fund_escrow s (.signed e.maker) id cur = .error .TimelockExpired
          ↔ e.timelock ≤ cur))
  ∧ (∀ (blake2 : Nat → Nat) (s : FusionEscrow.EscrowStore) (who : Acct)
        (id sec cur : Nat) (e : FusionEscrow.EscrowDetails),
        s.isPaused = false → s.escrows id = some e → e.state = .Active →
        (FusionEscrow.complete_escrow blake2 s (.signed who) id sec cur
            = .error .TimelockExpired
          ↔ e.timelock ≤ cur))
  ∧ (∀ (s : FusionEscrow.EscrowStore) (id cur : Nat) (e : FusionEscrow.EscrowDetails),
        s.isPaused = false → s.escrows id = some e → e.state = .Active →
        (FusionEscrow.cancel_escrow s (.signed e.maker) id cur = .error .TimelockNotExpired
          ↔ cur < e.timelock))
  ∧ (∀ (blake2 : Nat → Nat) (s s1 s2 : FusionEscrow.EscrowStore) (o1 o2 : Origin)
        (id sec cur : Nat),
        FusionEscrow.complete_escrow blake2 s o1 id sec cur = .ok s1 →
        FusionEscrow.cancel_escrow s o2 id cur = .ok s2 → False) := by
  refine ⟨?_, ?_, ?_, ?_⟩
  · intro s id cur e hp he hst
    exact FusionEscrow.fund_timelock_iff s id cur e hp he hst
  · intro blake2 s who id sec cur e hp he hst
    exact FusionEscrow.complete_timelock_iff blake2 s who id sec cur e hp he hst
  · intro s id cur e hp he hst
    exact FusionEscrow.cancel_timelock_iff s id cur e hp he hst
  · intro blake2 s s1 s2 o1 o2 id sec cur h1 h2
    obtain ⟨e, he⟩ := FusionEscrow.complete_ok_found blake2 s s1 o1 id sec cur h1
    obtain ⟨-, ht1⟩ := FusionEscrow.complete_ok_facts blake2 s s1 o1 id sec cur e he h1
    obtain ⟨-, ht2⟩ := FusionEscrow.cancel_ok_facts s s2 o2 id cur e he h2
    omega

/-- C3 witness: funding the `Created` escrow at block 50 (its timelock)
gives `TimelockExpired`; completing the `Active` escrow at block 50 gives
`TimelockExpired`; cancelling it at block 10 gives `TimelockNotExpired`. -/
theorem c3_witness :
    FusionEscrow.fund_escrow storeC (.signed (.user 1)) 1 50 = .error .TimelockExpired
    ∧ FusionEscrow.complete_escrow blakeFix storeA (.signed (.user 2)) 1 70 50
        = .error .TimelockExpired
    ∧ FusionEscrow.cancel_escrow storeA (.signed (.user 1)) 1 10
        = .error .TimelockNotExpired :=
  ⟨(c3_timelock_discipline.1 storeC 1 50 escC rfl rfl rfl).mpr (by decide),
   (c3_timelock_discipline.2.1 blakeFix storeA (.user 2) 1 70 50 escA rfl rfl rfl).mpr (by decide),
   (c3_timelock_discipline.2.2.1 storeA 1 10 escA rfl rfl rfl).mpr (by decide)⟩

/-- C5 (confirmed): a successful `cancel_before_funding` removes the
`by_secret` entry of the escrow's digest; `complete_escrow` and
`cancel_escrow` leave the `by_secret` map untouched; `create_escrow`
fails with `DuplicateSecretHash` exactly when an entry for the digest is
present (given the checks ordered before it pass), so the digest is
reusable after `cancel_before_funding` and only then. -/
theorem c5_digest_reuse :
    (∀ (s : FusionEscrow.EscrowStore) (id : Nat) (e : FusionEscrow.EscrowDetails),
        s.isPaused = false → s.escrows id = some e → e.state = .Created →
        ∃ s', FusionEscrow.cancel_before_funding s (.signed e.maker) id = .ok s'
          ∧ s'.escrowsBySecret e.secret_hash = Option.none)
  ∧ (∀ (blake2 : Nat → Nat) (s s' : FusionEscrow.EscrowStore) (o : Origin)
        (id sec cur : Nat),
        FusionEscrow.complete_escrow blake2 s o id sec cur = .ok s' →
        s'.escrowsBySecret = s.escrowsBySecret)
  ∧ (∀ (s s' : FusionEscrow.EscrowStore) (o : Origin) (id cur : Nat),
        FusionEscrow.cancel_escrow s o id cur = .ok s' →
        s'.escrowsBySecret = s.escrowsBySecret)
  ∧ (∀ cfg (s : FusionEscrow.EscrowStore) maker taker sh t aty amt xd md cur,
        s.isPaused = false → cur + cfg.MinTimelock ≤ t → t ≤ cur + cfg.MaxTimelock →
        maker ≠ taker → (s.escrowsBySecret sh).isSome = true →
        FusionEscrow.create_escrow cfg s (.signed maker) sh t taker aty amt xd md cur
          = .error .DuplicateSecretHash)
  ∧ (∀ cfg (s : FusionEscrow.EscrowStore) maker taker sh t aty amt xd md cur,
        s.escrowsBySecret sh = Option.none →
        FusionEscrow.create_escrow cfg s (.signed maker) sh t taker aty amt xd md cur
          ≠ .error .DuplicateSecretHash) := by
  refine ⟨?_, ?_, ?_, ?_, ?_⟩
  · intro s id e hp he hst
    refine ⟨_, FusionEscrow.cbf_success s id e hp he hst, ?_⟩
    simp [upd]
  · intro blake2 s s' o id sec cur h
    exact (FusionEscrow.complete_ok_frame blake2 s s' o id sec cur h).2.2.1
  · intro s s' o id cur h
    exact (FusionEscrow.cancel_ok_frame s s' o id cur h).2.2.1
  · intro cfg s maker taker sh t aty amt xd md cur hp h1 h2 hne hdup
    exact FusionEscrow.create_dup_err cfg s maker taker sh t aty amt xd md cur hp h1 h2 hne hdup
  · intro cfg s maker taker sh t aty amt xd md cur hdup
    exact FusionEscrow.create_no_dup_err cfg s maker taker sh t aty amt xd md cur hdup

/-- C5 witness: cancelling the unfunded escrow 1 frees digest 77;
completing escrow 1 of `storeA` leaves `by_secret` unchanged; a create
against the live digest 77 fails with `DuplicateSecretHash`; a create
against the absent digest 99 never reports a duplicate. -/
theorem c5_witness :
    (∃ s', FusionEscrow.cancel_before_funding storeC (.signed (.user 1)) 1 = .ok s'
        ∧ s'.escrowsBySecret escC.secret_hash = Option.none)
    ∧ storeAafterComplete.escrowsBySecret = storeA.escrowsBySecret
    ∧ FusionEscrow.create_escrow cfg0 storeA (.signed (.user 3)) 77 20 (.user 4)
        .Native 5 Option.none [] 1 = .error .DuplicateSecretHash
    ∧ FusionEscrow.create_escrow cfg0 storeA (.signed (.user 3)) 99 20 (.user 4)
        .Native 5 Option.none [] 1 ≠ .error .DuplicateSecretHash :=
  ⟨c5_digest_reuse.1 storeC 1 escC rfl rfl rfl,
   c5_digest_reuse.2.1 blakeFix storeA storeAafterComplete (.signed (.user 2)) 1 70 10 rfl,
   c5_digest_reuse.2.2.2.1 cfg0 storeA (.user 3) (.user 4) 77 20 .Native 5 Option.none [] 1
     rfl (by decide) (by decide) (by decide) rfl,
   c5_digest_reuse.2.2.2.2 cfg0 storeA (.user 3) (.user 4) 99 20 .Native 5 Option.none [] 1 rfl⟩

/-- The maximal u32 value, where `saturating_add` pins the id counter. -/
def maxU32 : Nat := 2 ^ 32 - 1

/-- An escrow already assigned the maximal id. -/
def escOld : FusionEscrow.EscrowDetails :=
  { secret_hash := 11, maker := .user 5, taker := .user 6, timelock := 40,
    asset_type := .Native, amount := 7, state := .Created,
    xcm_destination := Option.none, created_block := 1, metadata := [] }

/-- A store whose id counter sits at the maximal u32 value with the
record under that id already present. -/
def storeMax : FusionEscrow.EscrowStore :=
  { escrows := fun i => if i = maxU32 then some escOld else Option.none,
    nextEscrowId := maxU32,
    escrowsBySecret := fun h => if h = 11 then some maxU32 else Option.none,
    escrowsByMaker := fun a => if a = .user 5 then [maxU32] else [],
    escrowsByTaker := fun a => if a = .user 6 then [maxU32] else [],
    isPaused := false,
    balances := fun _ _ => 0 }

/-- C8: with the id counter at the maximal u32 value and id `2^32 − 1`
already assigned, a valid `create_escrow` does not fail with `Overflow`:
it succeeds, silently overwrites the record stored under `2^32 − 1`, and
leaves `next_id` at `2^32 − 1`, no longer strictly above the assigned
ids. -/
theorem c8_saturation_id_reuse :
    isOk (FusionEscrow.create_escrow cfg0 storeMax (.signed (.user 7)) 12 20 (.user 8)
        .Native 5 Option.none [] 1) = true
    ∧ FusionEscrow.create_escrow cfg0 storeMax (.signed (.user 7)) 12 20 (.user 8)
        .Native 5 Option.none [] 1 ≠ .error .Overflow
    ∧ (FusionEscrow.dispatchState (FusionEscrow.create_escrow cfg0 storeMax
        (.signed (.user 7)) 12 20 (.user 8) .Native 5 Option.none [] 1)
        storeMax).nextEscrowId = maxU32
    ∧ (FusionEscrow.dispatchState (FusionEscrow.create_escrow cfg0 storeMax
        (.signed (.user 7)) 12 20 (.user 8) .Native 5 Option.none [] 1)
        storeMax).escrows maxU32 ≠ some escOld
    ∧ storeMax.escrows maxU32 = some escOld := by
  refine ⟨rfl, isOk_ne_error _ _ rfl, rfl, by decide, rfl⟩

/-- C10 (confirmed): `fund_escrow`, `complete_escrow`, `cancel_escrow`
and `cancel_before_funding` never change the maker or taker index lists,
and a successful `create_escrow` requires both the maker's and the
taker's lists to be strictly below `MaxEscrowsPerAccount` — so the cap
counts every escrow ever indexed for an account, terminal ones included,
and an account at the cap cannot be maker or taker of a new escrow. -/
theorem c10_index_lists_append_only :
    (∀ (s s' : FusionEscrow.EscrowStore) (o : Origin) (id cur : Nat),
        FusionEscrow.fund_escrow s o id cur = .ok s' →
        s'.escrowsByMaker = s.escrowsByMaker ∧ s'.escrowsByTaker = s.escrowsByTaker)
  ∧ (∀ (blake2 : Nat → Nat) (s s' : FusionEscrow.EscrowStore) (o : Origin)
        (id sec cur : Nat),
        FusionEscrow.complete_escrow blake2 s o id sec cur = .ok s' →
        s'.escrowsByMaker = s.escrowsByMaker ∧ s'.escrowsByTaker = s.escrowsByTaker)
  ∧ (∀ (s s' : FusionEscrow.EscrowStore) (o : Origin) (id cur : Nat),
        FusionEscrow.cancel_escrow s o id cur = .ok s' →
        s'.escrowsByMaker = s.escrowsByMaker ∧ s'.escrowsByTaker = s.escrowsByTaker)
  ∧ (∀ (s s' : FusionEscrow.EscrowStore) (o : Origin) (id : Nat),
        FusionEscrow.cancel_before_funding s o id = .ok s' →
        s'.escrowsByMaker = s.escrowsByMaker ∧ s'.escrowsByTaker = s.escrowsByTaker)
  ∧ (∀ cfg (s s' : FusionEscrow.EscrowStore) maker taker sh t aty amt xd md cur,
        FusionEscrow.create_escrow cfg s (.signed maker) sh t taker aty amt xd md cur = .ok s' →
        (s.escrowsByMaker maker).length < cfg.MaxEscrowsPerAccount
        ∧ (s.escrowsByTaker taker).length < cfg.MaxEscrowsPerAccount) := by
  refine ⟨?_, ?_, ?_, ?_, ?_⟩
  · intro s s' o id cur h
    obtain ⟨a, b, -, -⟩ := FusionEscrow.fund_ok_frame s s' o id cur h
    exact ⟨a, b⟩
  · intro blake2 s s' o id sec cur h
    obtain ⟨a, b, -, -⟩ := FusionEscrow.complete_ok_frame blake2 s s' o id sec cur h
    exact ⟨a, b⟩
  · intro s s' o id cur h
    obtain ⟨a, b, -, -⟩ := FusionEscrow.cancel_ok_frame s s' o id cur h
    exact ⟨a, b⟩
  · intro s s' o id h
    obtain ⟨a, b, -, -⟩ := FusionEscrow.cbf_ok_frame s s' o id h
    exact ⟨a, b⟩
  · intro cfg s s' maker taker sh t aty amt xd md cur h
    exact ⟨FusionEscrow.create_ok_maker_cap cfg s s' maker taker sh t aty amt xd md cur h,
           FusionEscrow.create_ok_taker_cap cfg s s' maker taker sh t aty amt xd md cur h⟩

/-- C10 witness: completing escrow 1 leaves both index lists unchanged,
and the succeeding create on `storeA` had both lists below the cap. -/
theorem c10_witness :
    (storeAafterComplete.escrowsByMaker = storeA.escrowsByMaker
      ∧ storeAafterComplete.escrowsByTaker = storeA.escrowsByTaker)
    ∧ ((storeA.escrowsByMaker (.user 3)).length < cfg0.MaxEscrowsPerAccount
      ∧ (storeA.escrowsByTaker (.user 4)).length < cfg0.MaxEscrowsPerAccount) :=
  ⟨c10_index_lists_append_only.2.1 blakeFix storeA storeAafterComplete
      (.signed (.user 2)) 1 70 10 rfl,
   c10_index_lists_append_only.2.2.2.2 cfg0 storeA storeAafterCreate (.user 3) (.user 4)
      99 20 .Native 5 Option.none [] 1 rfl⟩

end Polkavex
